import Mathlib

/-!
Shallow embedding of the aerodrome-liquidity-framework repository
(`utils/liquidity_manager.py`, `utils/blockchain_connector.py`) and proofs
about the claims of its specification.

Python integers are modelled by `Int`/`Nat`, exact `Decimal` arithmetic by
`Rat`, Python `int(...)` applied to an exact decimal value by truncation
toward zero, and Python exceptions by an explicit error type threaded
through `Except` results.  Chain interaction (RPC calls, transaction
submission) is modelled by oracle records supplying the outcome of each
external call; a list of transaction hashes records which transactions were
actually submitted to the chain.
-/

namespace Aerodrome

/-! ## Unit Converter (`blockchain_connector.py`, lines 229-253) -/

/-- Python `int(q)` on an exact decimal value: truncation toward zero,
computed as T-division of numerator by denominator. -/
def pyint (q : ℚ) : ℤ := Int.tdiv q.num (q.den : ℤ)

/-- `to_blockchain_unit(amount, decimals)`:
`int(Decimal(amount) * Decimal(10 ** decimals))`, with the exact value of
the `Decimal` product modelled as a rational number. -/
def to_blockchain_unit (amount : ℚ) (decimals : ℕ) : ℤ :=
  pyint (amount * 10 ^ decimals)

/-- `to_human_readable(amount, decimals)`:
`float(Decimal(amount) / Decimal(10 ** decimals))`, with the exact quotient
modelled as a rational number. -/
def to_human_readable (amount : ℤ) (decimals : ℕ) : ℚ :=
  (amount : ℚ) / 10 ^ decimals

/-! ## Tick range computation (`liquidity_manager.py`, lines 130-139)

Python `%` with a positive right operand returns a value in `[0, spacing)`,
exactly as `Int.emod` does, so `%` on `Int` is a faithful model here. -/

/-- `raw_lower_tick = current_tick - (current_tick % self.tick_spacing)`. -/
def raw_lower_tick (current_tick tick_spacing : ℤ) : ℤ :=
  current_tick - current_tick % tick_spacing

/-- `raw_upper_tick = raw_lower_tick + self.tick_spacing`. -/
def raw_upper_tick (current_tick tick_spacing : ℤ) : ℤ :=
  raw_lower_tick current_tick tick_spacing + tick_spacing

/-- `lower_tick = raw_lower_tick - self.lower_range_percentage * self.tick_spacing`. -/
def lower_tick (current_tick tick_spacing lower_range_percentage : ℤ) : ℤ :=
  raw_lower_tick current_tick tick_spacing - lower_range_percentage * tick_spacing

/-- `upper_tick = raw_upper_tick + self.upper_range_percentage * self.tick_spacing`. -/
def upper_tick (current_tick tick_spacing upper_range_percentage : ℤ) : ℤ :=
  raw_upper_tick current_tick tick_spacing + upper_range_percentage * tick_spacing

/-! ## Python exceptions

`base k m` models `raise K(m)`, `chained k m e` models `raise K(m) from e`
(or an `f`-string embedding of the caught exception).  The kinds
`validationError` and `malformedReceiptError` are the error classes named
by the specification; the code itself never defines or raises them. -/

inductive ExcKind where
  | runtimeError
  | valueError
  | attributeError
  | exc
  | validationError
  | malformedReceiptError
deriving DecidableEq

inductive PyErr where
  | base (kind : ExcKind) (msg : String)
  | chained (kind : ExcKind) (msg : String) (cause : PyErr)
deriving DecidableEq

/-- The class of the exception actually raised (ignoring its cause chain). -/
def PyErr.kind : PyErr → ExcKind
  | .base k _ => k
  | .chained k _ _ => k

/-! ## Receipts and event logs -/

/-- One event-log entry of a transaction receipt: emitting address, topic
hashes (each a byte string) and the raw data bytes. -/
structure Log where
  address : String
  topics : List (List ℕ)
  data : List ℕ
deriving DecidableEq

structure TxReceipt where
  status : ℕ
  logs : List Log
deriving DecidableEq

/-- `int(bs.hex(), 16)` for a non-empty byte string: the big-endian
base-256 value.  (On the empty byte string Python's `int` raises
`ValueError`; callers model that case separately.) -/
def bytesBE (bs : List ℕ) : ℕ := bs.foldl (fun acc b => acc * 256 + b) 0

/-! ## Manager configuration and mutable state -/

/-- The immutable data loaded by `LiquidityManager.__init__`. -/
structure MgrConfig where
  token0_address : String
  token1_address : String
  nft_address : String
  token0_decimals : ℕ
  token1_decimals : ℕ
  token0_max : ℚ
  token1_max : ℚ
  lower_range_percentage : ℤ
  upper_range_percentage : ℤ

structure PoolStatus where
  current_price : ℚ
  lower_price : ℚ
  upper_price : ℚ
  current_tick : ℤ
  lower_tick : ℤ
  upper_tick : ℤ
deriving DecidableEq

/-- The instance attributes `LiquidityManager` assigns after construction;
`none` models an attribute that has never been set (reading it raises
`AttributeError`). -/
structure MgrState where
  start_pool_status : Option PoolStatus
  tick_spacing : Option ℤ
  opening_tx_hash : Option String
  opening_receipt : Option TxReceipt
  amount0 : Option ℚ
  amount1 : Option ℚ
  nft_token_id : Option ℕ
deriving DecidableEq

/-- State of a freshly constructed manager: no attribute set. -/
def initialState : MgrState := ⟨none, none, none, none, none, none, none⟩

/-! ## Receipt parsing (`liquidity_manager.py`, lines 223-262)

The loop body of `parse_opening_receipt` is three sequential `if`
statements; each hex decode can raise, in which case the loop stops but
the attribute assignments already made persist. -/

/-- `if log.address == self.token0_address: ... self.amount0 = ...`. -/
def step_amount0 (cfg : MgrConfig) (st : MgrState) (log : Log) : MgrState × Option PyErr :=
  if log.address = cfg.token0_address then
    if log.data = [] then
      (st, some (.base .valueError "invalid literal for int with base 16"))
    else
      let v := to_human_readable (bytesBE log.data) cfg.token0_decimals
      ({ st with amount0 := some v }, none)
  else (st, none)

/-- `if log.address == self.token1_address: ... self.amount1 = ...`. -/
def step_amount1 (cfg : MgrConfig) (st : MgrState) (log : Log) : MgrState × Option PyErr :=
  if log.address = cfg.token1_address then
    if log.data = [] then
      (st, some (.base .valueError "invalid literal for int with base 16"))
    else
      let v := to_human_readable (bytesBE log.data) cfg.token1_decimals
      ({ st with amount1 := some v }, none)
  else (st, none)

/-- `if log.address == self.nft_address and len(log.topics) == 2: ...
self.nft_token_id = int(log.topics[1].hex(), 16)`.  Under the length-two
guard, `log.topics.getD 1 []` is exactly `log.topics[1]`. -/
def step_token_id (cfg : MgrConfig) (st : MgrState) (log : Log) : MgrState × Option PyErr :=
  if log.address = cfg.nft_address ∧ log.topics.length = 2 then
    if log.topics.getD 1 [] = [] then
      (st, some (.base .valueError "invalid literal for int with base 16"))
    else
      ({ st with nft_token_id := some (bytesBE (log.topics.getD 1 [])) }, none)
  else (st, none)

/-- One iteration of the `for log in self.opening_receipt["logs"]` loop. -/
def parse_log (cfg : MgrConfig) (st : MgrState) (log : Log) : MgrState × Option PyErr :=
  match step_amount0 cfg st log with
  | (st1, some e) => (st1, some e)
  | (st1, none) =>
    match step_amount1 cfg st1 log with
    | (st2, some e) => (st2, some e)
    | (st2, none) => step_token_id cfg st2 log

/-- The whole loop; stops at the first raised exception. -/
def parse_logs (cfg : MgrConfig) : MgrState → List Log → MgrState × Option PyErr
  | st, [] => (st, none)
  | st, log :: rest =>
    match parse_log cfg st log with
    | (st1, some e) => (st1, some e)
    | (st1, none) => parse_logs cfg st1 rest

/-- `parse_opening_receipt`: runs the loop over
`self.opening_receipt["logs"]`, then builds the result dictionary from
`self.amount0`, `self.amount1`, `self.nft_token_id`; any exception is
re-raised as `RuntimeError("Error parsing mint receipt: ...")`. -/
def parse_opening_receipt (cfg : MgrConfig) (st : MgrState) :
    MgrState × Except PyErr (ℚ × ℚ × ℕ) :=
  match st.opening_receipt with
  | none =>
      (st, .error (.chained .runtimeError "Error parsing mint receipt"
        (.base .attributeError "opening_receipt")))
  | some receipt =>
    match parse_logs cfg st receipt.logs with
    | (st1, some e) =>
        (st1, .error (.chained .runtimeError "Error parsing mint receipt" e))
    | (st1, none) =>
      match st1.amount0, st1.amount1, st1.nft_token_id with
      | some a0, some a1, some tid => (st1, .ok (a0, a1, tid))
      | _, _, _ =>
          (st1, .error (.chained .runtimeError "Error parsing mint receipt"
            (.base .attributeError "amount0, amount1 or nft_token_id")))

/-- The last receipt log whose emitting address is `token0`'s address. -/
def last_token0_log (cfg : MgrConfig) (logs : List Log) : Option Log :=
  (logs.filter (fun l => l.address == cfg.token0_address)).getLast?

/-- All hex decodes that the parsing loop would attempt on this log
succeed (each relevant byte string is non-empty). -/
def logDecodes (cfg : MgrConfig) (log : Log) : Prop :=
  (log.address = cfg.token0_address → log.data ≠ []) ∧
    (log.address = cfg.token1_address → log.data ≠ []) ∧
    (log.address = cfg.nft_address → log.topics.length = 2 →
      log.topics.getD 1 [] ≠ [])

instance (cfg : MgrConfig) (log : Log) : Decidable (logDecodes cfg log) := by
  unfold logDecodes
  infer_instance

/-- The effect of one loop iteration on `self.amount0` alone. -/
def upd0 (cfg : MgrConfig) (a : Option ℚ) (l : Log) : Option ℚ :=
  if l.address = cfg.token0_address then
    some (to_human_readable (bytesBE l.data) cfg.token0_decimals)
  else a

/-! ## Transactions (`blockchain_connector.py`, lines 338-476)

Chain interaction is modelled by oracle records giving the outcome of each
external call.  Every operation returns, besides its Python result, the
list of transaction hashes it actually submitted to the chain
(`send_raw_transaction` calls). -/

/-- Oracle for one `build_and_send_transaction` call: whether building and
signing succeed, whether broadcasting succeeds, whether the receipt
arrives within the timeout, and the mined receipt. -/
structure ChainTx where
  preOk : Bool
  sendOk : Bool
  txHash : String
  waitOk : Bool
  receipt : TxReceipt
deriving DecidableEq

/-- `build_and_send_transaction`: build, sign, broadcast, wait for the
receipt, then `if receipt.status != 1: raise Exception(...)`; every
failure is re-raised as `RuntimeError("Transaction failed")`. -/
def build_and_send_transaction (c : ChainTx) :
    Except PyErr (String × TxReceipt) × List String :=
  if c.preOk = false then
    (.error (.chained .runtimeError "Transaction failed"
      (.base .exc "failed to build or sign")), [])
  else if c.sendOk = false then
    (.error (.chained .runtimeError "Transaction failed"
      (.base .exc "failed to send raw transaction")), [])
  else if c.waitOk = false then
    (.error (.chained .runtimeError "Transaction failed"
      (.base .exc "timed out waiting for receipt")), [c.txHash])
  else if c.receipt.status ≠ 1 then
    (.error (.chained .runtimeError "Transaction failed"
      (.base .exc "Minting liquidity failed.")), [c.txHash])
  else (.ok (c.txHash, c.receipt), [c.txHash])

/-- Oracle for `approve_token`: address validation results, ABI load,
`allowance` call and the approval transaction. -/
structure ApproveOracle where
  token_valid : Bool
  spender_valid : Bool
  loadOk : Bool
  allowanceOk : Bool
  allowance : ℤ
  tx : ChainTx
deriving DecidableEq

/-- `approve_token`: validates both addresses, loads the token contract,
reads the current allowance and skips the transaction when it already
covers `amount`; otherwise submits an `approve` transaction.  Every
failure is re-raised as
`RuntimeError("Token approval transaction failed.")`. -/
def approve_token (amount : ℤ) (o : ApproveOracle) :
    Except PyErr String × List String :=
  if o.token_valid = false then
    (.error (.chained .runtimeError "Token approval transaction failed."
      (.base .valueError "Invalid token address")), [])
  else if o.spender_valid = false then
    (.error (.chained .runtimeError "Token approval transaction failed."
      (.base .valueError "Invalid spender address")), [])
  else if o.loadOk = false then
    (.error (.chained .runtimeError "Token approval transaction failed."
      (.base .valueError "ABI file not found.")), [])
  else if o.allowanceOk = false then
    (.error (.chained .runtimeError "Token approval transaction failed."
      (.base .exc "allowance call failed")), [])
  else if amount ≤ o.allowance then
    (.ok "Allowance is sufficient", [])
  else
    match build_and_send_transaction o.tx with
    | (.error e, tr) =>
        (.error (.chained .runtimeError "Token approval transaction failed." e), tr)
    | (.ok (h, _), tr) => (.ok ("Approval successful. Transaction hash: " ++ h), tr)

/-- Oracle for `decrease_liquidity`: the `positions` read, the
`get_block("latest")` read and the decrease transaction. -/
structure StepOracle where
  positionsOk : Bool
  liquidity : ℕ
  blockOk : Bool
  timestamp : ℕ
  tx : ChainTx
deriving DecidableEq

/-- `decrease_liquidity`: reads `self.nft_token_id` (raising
`AttributeError` if it was never set), reads the position's current
liquidity, submits a `decreaseLiquidity` transaction; every failure is
re-raised as `RuntimeError("Failed to decrease liquidity.")`. -/
def decrease_liquidity (st : MgrState) (o : StepOracle) :
    Except PyErr String × List String :=
  match st.nft_token_id with
  | none =>
      (.error (.chained .runtimeError "Failed to decrease liquidity."
        (.base .attributeError "nft_token_id")), [])
  | some _ =>
    if o.positionsOk = false then
      (.error (.chained .runtimeError "Failed to decrease liquidity."
        (.base .exc "positions call failed")), [])
    else if o.blockOk = false then
      (.error (.chained .runtimeError "Failed to decrease liquidity."
        (.base .exc "get_block call failed")), [])
    else
      match build_and_send_transaction o.tx with
      | (.error e, tr) =>
          (.error (.chained .runtimeError "Failed to decrease liquidity." e), tr)
      | (.ok (h, _), tr) => (.ok h, tr)

/-- `collect_fees`: reads `self.nft_token_id` and submits a `collect`
transaction; failures become `RuntimeError("Failed to collect fees.")`. -/
def collect_fees (st : MgrState) (tx : ChainTx) :
    Except PyErr String × List String :=
  match st.nft_token_id with
  | none =>
      (.error (.chained .runtimeError "Failed to collect fees."
        (.base .attributeError "nft_token_id")), [])
  | some _ =>
    match build_and_send_transaction tx with
    | (.error e, tr) =>
        (.error (.chained .runtimeError "Failed to collect fees." e), tr)
    | (.ok (h, _), tr) => (.ok h, tr)

/-- `burn_nft`: reads `self.nft_token_id` and submits a `burn`
transaction; failures become `RuntimeError("Failed to burn NFT.")`. -/
def burn_nft (st : MgrState) (tx : ChainTx) :
    Except PyErr String × List String :=
  match st.nft_token_id with
  | none =>
      (.error (.chained .runtimeError "Failed to burn NFT."
        (.base .attributeError "nft_token_id")), [])
  | some _ =>
    match build_and_send_transaction tx with
    | (.error e, tr) =>
        (.error (.chained .runtimeError "Failed to burn NFT." e), tr)
    | (.ok (h, _), tr) => (.ok h, tr)

structure CloseOracle where
  dec : StepOracle
  colTx : ChainTx
  burnTx : ChainTx
deriving DecidableEq

structure CloseSummary where
  decrease_liquidity_tx : String
  collect_fees_tx : String
  burn_nft_tx : String
deriving DecidableEq

/-- `close_liquidity_position`: logs `self.nft_token_id` (so an unset id
raises `AttributeError` before anything is submitted), then runs
decrease-liquidity, collect-fees and burn-NFT in order, stopping at the
first failure; every failure is re-raised as
`RuntimeError("Failed to close liquidity position.")` chained on the
sub-step's exception. -/
def close_liquidity_position (st : MgrState) (o : CloseOracle) :
    Except PyErr CloseSummary × List String :=
  match st.nft_token_id with
  | none =>
      (.error (.chained .runtimeError "Failed to close liquidity position."
        (.base .attributeError "nft_token_id")), [])
  | some _ =>
    match decrease_liquidity st o.dec with
    | (.error e, tr1) =>
        (.error (.chained .runtimeError "Failed to close liquidity position." e), tr1)
    | (.ok dtx, tr1) =>
      match collect_fees st o.colTx with
      | (.error e, tr2) =>
          (.error (.chained .runtimeError "Failed to close liquidity position." e),
            tr1 ++ tr2)
      | (.ok ctx, tr2) =>
        match burn_nft st o.burnTx with
        | (.error e, tr3) =>
            (.error (.chained .runtimeError "Failed to close liquidity position." e),
              tr1 ++ tr2 ++ tr3)
        | (.ok btx, tr3) => (.ok ⟨dtx, ctx, btx⟩, tr1 ++ tr2 ++ tr3)

/-- Oracle for `transfer_token`: address validation, contract load and the
`decimals` read, plus the transfer transaction. -/
structure TransferOracle where
  token_valid : Bool
  recipient_valid : Bool
  loadOk : Bool
  decimalsOk : Bool
  decimals : ℕ
  tx : ChainTx
deriving DecidableEq

/-- `transfer_token`: validates addresses, loads the contract, converts
the amount using the token's decimals and submits a `transfer`
transaction; every failure is re-raised as
`RuntimeError("Transaction failed")`.  (The code assigns the
`(tx_hash, receipt)` tuple returned by `build_and_send_transaction` to a
single variable, so on success that whole tuple is returned.) -/
def transfer_token (amount : ℚ) (o : TransferOracle) :
    Except PyErr (String × TxReceipt) × List String :=
  if o.token_valid = false then
    (.error (.chained .runtimeError "Transaction failed"
      (.base .valueError "Invalid token address")), [])
  else if o.recipient_valid = false then
    (.error (.chained .runtimeError "Transaction failed"
      (.base .valueError "Invalid recipient address")), [])
  else if o.loadOk = false then
    (.error (.chained .runtimeError "Transaction failed"
      (.base .valueError "ABI file not found.")), [])
  else if o.decimalsOk = false then
    (.error (.chained .runtimeError "Transaction failed"
      (.base .exc "decimals call failed")), [])
  else
    let _amount_in_units := to_blockchain_unit amount o.decimals
    match build_and_send_transaction o.tx with
    | (.error e, tr) =>
        (.error (.chained .runtimeError "Transaction failed" e), tr)
    | (.ok hr, tr) => (.ok hr, tr)

/-! ## Pool status and opening (`liquidity_manager.py`, lines 63-221) -/

/-- Oracle for `get_pool_status`: the `slot0` and `tickSpacing` reads, and
the second `slot0` read performed inside `get_current_price`. -/
structure PoolOracle where
  slot0Ok : Bool
  sqrtPriceX96 : ℕ
  tick : ℤ
  tickSpacingOk : Bool
  tickSpacing : ℤ
  priceSlot0Ok : Bool
  priceSqrtPriceX96 : ℕ
deriving DecidableEq

/-- `tick_to_price`: `1.0001 ** tick * 10 ** (dec0 - dec1)`, with the
floating-point arithmetic modelled exactly over `ℚ`. -/
def tick_to_price (cfg : MgrConfig) (tick : ℤ) : ℚ :=
  (10001 / 10000 : ℚ) ^ tick *
    (10 : ℚ) ^ ((cfg.token0_decimals : ℤ) - cfg.token1_decimals)

/-- `get_current_price`: `(sqrt_price_x96 / 2**96)**2 * 10**(dec0 - dec1)`
from a fresh `slot0` read; failures become
`RuntimeError("Failed to fetch current price.")`. -/
def get_current_price (cfg : MgrConfig) (o : PoolOracle) : Except PyErr ℚ :=
  if o.priceSlot0Ok = false then
    .error (.chained .runtimeError "Failed to fetch current price."
      (.base .exc "slot0 call failed"))
  else
    .ok (((o.priceSqrtPriceX96 : ℚ) / 2 ^ 96) ^ 2 *
      (10 : ℚ) ^ ((cfg.token0_decimals : ℤ) - cfg.token1_decimals))

/-- `get_pool_status`: reads `slot0` and `tickSpacing` (the latter stored
in `self.tick_spacing`), computes the adjusted tick range and the three
prices; failures become `RuntimeError("Failed to fetch pool status.")`. -/
def get_pool_status (cfg : MgrConfig) (st : MgrState) (o : PoolOracle) :
    MgrState × Except PyErr PoolStatus :=
  if o.slot0Ok = false then
    (st, .error (.chained .runtimeError "Failed to fetch pool status."
      (.base .exc "slot0 call failed")))
  else if o.tickSpacingOk = false then
    (st, .error (.chained .runtimeError "Failed to fetch pool status."
      (.base .exc "tickSpacing call failed")))
  else
    let st1 := { st with tick_spacing := some o.tickSpacing }
    match get_current_price cfg o with
    | .error e =>
        (st1, .error (.chained .runtimeError "Failed to fetch pool status." e))
    | .ok cp =>
      let lt := lower_tick o.tick o.tickSpacing cfg.lower_range_percentage
      let ut := upper_tick o.tick o.tickSpacing cfg.upper_range_percentage
      (st1, .ok ⟨cp, tick_to_price cfg lt, tick_to_price cfg ut, o.tick, lt, ut⟩)

/-- Oracle for `open_liquidity_position`: the pool reads, both approvals,
the `get_block("latest")` read for the deadline, and the mint
transaction. -/
structure OpenOracle where
  pool : PoolOracle
  approve0 : ApproveOracle
  approve1 : ApproveOracle
  blockOk : Bool
  timestamp : ℕ
  mintTx : ChainTx
deriving DecidableEq

/-- `open_liquidity_position`: pool status, unit conversion, two token
approvals, mint submission and receipt wait, then receipt parsing; the
position attributes are only ever assigned inside the parsing step.
Failures become `RuntimeError("Failed to open liquidity position.")`. -/
def open_liquidity_position (cfg : MgrConfig) (st : MgrState) (o : OpenOracle) :
    MgrState × Except PyErr String × List String :=
  match get_pool_status cfg st o.pool with
  | (st1, .error e) =>
      (st1, .error (.chained .runtimeError "Failed to open liquidity position." e), [])
  | (st1, .ok ps) =>
    let st2 := { st1 with start_pool_status := some ps }
    let token0_amount := to_blockchain_unit cfg.token0_max cfg.token0_decimals
    let token1_amount := to_blockchain_unit cfg.token1_max cfg.token1_decimals
    match approve_token token0_amount o.approve0 with
    | (.error e, tr0) =>
        (st2, .error (.chained .runtimeError "Failed to open liquidity position." e), tr0)
    | (.ok _, tr0) =>
      match approve_token token1_amount o.approve1 with
      | (.error e, tr1) =>
          (st2, .error (.chained .runtimeError "Failed to open liquidity position." e),
            tr0 ++ tr1)
      | (.ok _, tr1) =>
        if o.blockOk = false then
          (st2, .error (.chained .runtimeError "Failed to open liquidity position."
            (.base .exc "get_block call failed")), tr0 ++ tr1)
        else
          match build_and_send_transaction o.mintTx with
          | (.error e, trm) =>
              (st2, .error (.chained .runtimeError "Failed to open liquidity position." e),
                tr0 ++ tr1 ++ trm)
          | (.ok (h, rcpt), trm) =>
            let st3 := { st2 with opening_tx_hash := some h,
                                  opening_receipt := some rcpt }
            match parse_opening_receipt cfg st3 with
            | (st4, .error e) =>
                (st4, .error (.chained .runtimeError
                  "Failed to open liquidity position." e), tr0 ++ tr1 ++ trm)
            | (st4, .ok _) => (st4, .ok h, tr0 ++ tr1 ++ trm)

/-! ## Concrete fixtures used by witnesses and counterexamples -/

/-- A transaction whose every chain interaction succeeds. -/
def txOk : ChainTx := ⟨true, true, "0xaaa", true, ⟨1, []⟩⟩

/-- A transaction that is mined but reverts (receipt status 0). -/
def txRevert : ChainTx := ⟨true, true, "0xdead", true, ⟨0, []⟩⟩

/-- A close oracle whose chain calls all succeed. -/
def closeOk : CloseOracle := ⟨⟨true, 5, true, 1700000000, txOk⟩, txOk, txOk⟩

/-- A close oracle whose `positions` read fails. -/
def closePositionsFail : CloseOracle := ⟨⟨false, 0, true, 1700000000, txOk⟩, txOk, txOk⟩

/-- A manager state holding an open position with token id 7. -/
def stOpen : MgrState := { initialState with nft_token_id := some 7 }

/-- A manager state still holding a previous position's parsed values. -/
def stStale : MgrState :=
  ⟨none, none, none, some ⟨1, []⟩, some 1, some 2, some 42⟩

/-- Config fixture: token0 `"T0"` / token1 `"T1"`, NFT manager `"NFT"`,
6 decimals each, range units `(3, 3)`. -/
def cfgW : MgrConfig := ⟨"T0", "T1", "NFT", 6, 6, 1, 1, 3, 3⟩

/-- A token0 transfer log carrying data `0x0f4240` (1,000,000). -/
def logT0 : Log := ⟨"T0", [], [15, 66, 64]⟩

/-- A state holding a mint receipt containing only the `logT0` fixture. -/
def stW : MgrState := { initialState with opening_receipt := some ⟨1, [logT0]⟩ }

/-- A state holding a mint receipt whose only token0 log has empty data. -/
def stEmptyData : MgrState :=
  { initialState with opening_receipt := some ⟨1, [⟨"T0", [], []⟩]⟩ }

/-- An approval oracle whose chain calls all succeed. -/
def apprOk : ApproveOracle := ⟨true, true, true, true, 0, txOk⟩

/-- An open oracle whose initial `slot0` read fails. -/
def openFailOracle : OpenOracle :=
  ⟨⟨false, 0, 0, true, 100, true, 0⟩, apprOk, apprOk, true, 0, txOk⟩

/-! ## Basic facts about the unit converter and the tick range -/

/-- `pyint` truncates toward zero: floor for non-negative arguments,
ceiling for negative ones. -/
theorem pyint_eq_trunc (q : ℚ) : pyint q = if 0 ≤ q then ⌊q⌋ else ⌈q⌉ := by
  unfold pyint
  split
  · next h =>
    rw [Int.tdiv_eq_ediv (Rat.num_nonneg.mpr h) (Int.natCast_nonneg _), Rat.floor_def]
  · next h =>
    push_neg at h
    have h1 : (0 : ℚ) ≤ -q := by linarith
    have h2 : (-q).num.tdiv ((-q).den : ℤ) = ⌊-q⌋ := by
      rw [Int.tdiv_eq_ediv (Rat.num_nonneg.mpr h1) (Int.natCast_nonneg _), Rat.floor_def]
    rw [Rat.neg_num, Rat.neg_den, Int.neg_tdiv, Int.floor_neg] at h2
    omega

/-! ## Facts about the receipt-parsing loop -/

theorem step_amount0_nft (cfg : MgrConfig) (st : MgrState) (log : Log) :
    (step_amount0 cfg st log).1.nft_token_id = st.nft_token_id := by
  unfold step_amount0
  split_ifs <;> rfl

theorem step_amount1_nft (cfg : MgrConfig) (st : MgrState) (log : Log) :
    (step_amount1 cfg st log).1.nft_token_id = st.nft_token_id := by
  unfold step_amount1
  split_ifs <;> rfl

theorem step_token_id_not_matching (cfg : MgrConfig) (st : MgrState) (log : Log)
    (h : ¬(log.address = cfg.nft_address ∧ log.topics.length = 2)) :
    step_token_id cfg st log = (st, none) := by
  unfold step_token_id
  rw [if_neg h]

/-- An iteration over a log that is not an NFT-address/two-topic log
leaves `nft_token_id` unchanged, whether or not it raises. -/
theorem parse_log_nft_unchanged (cfg : MgrConfig) (st : MgrState) (log : Log)
    (h : ¬(log.address = cfg.nft_address ∧ log.topics.length = 2)) :
    (parse_log cfg st log).1.nft_token_id = st.nft_token_id := by
  unfold parse_log
  rcases h0 : step_amount0 cfg st log with ⟨st1, e1⟩
  have hn0 : st1.nft_token_id = st.nft_token_id := by
    have hx := step_amount0_nft cfg st log
    rw [h0] at hx
    exact hx
  cases e1 with
  | some e => exact hn0
  | none =>
    dsimp only
    rcases h1 : step_amount1 cfg st1 log with ⟨st2, e2⟩
    have hn1 : st2.nft_token_id = st1.nft_token_id := by
      have hx := step_amount1_nft cfg st1 log
      rw [h1] at hx
      exact hx
    cases e2 with
    | some e => exact hn1.trans hn0
    | none =>
      dsimp only
      rw [step_token_id_not_matching cfg st2 log h]
      exact hn1.trans hn0

/-- The whole loop leaves `nft_token_id` unchanged when no log matches
the NFT-address/two-topic pattern. -/
theorem parse_logs_nft_unchanged (cfg : MgrConfig) :
    ∀ (logs : List Log) (st : MgrState),
      (∀ l ∈ logs, ¬(l.address = cfg.nft_address ∧ l.topics.length = 2)) →
      (parse_logs cfg st logs).1.nft_token_id = st.nft_token_id := by
  intro logs
  induction logs with
  | nil => intro st _; rfl
  | cons l ls ih =>
    intro st h
    have hl := h l (List.mem_cons_self l ls)
    have hls : ∀ x ∈ ls, ¬(x.address = cfg.nft_address ∧ x.topics.length = 2) :=
      fun x hx => h x (List.mem_cons_of_mem l hx)
    have h1 := parse_log_nft_unchanged cfg st l hl
    unfold parse_logs
    rcases hp : parse_log cfg st l with ⟨st1, e1⟩
    rw [hp] at h1
    cases e1 with
    | some e => exact h1
    | none => exact (ih st1 hls).trans h1

/-- When every decode on a log succeeds, the iteration does not raise and
updates `amount0` exactly as `upd0` describes. -/
theorem parse_log_decodes (cfg : MgrConfig) (st : MgrState) (log : Log)
    (h : logDecodes cfg log) :
    (parse_log cfg st log).2 = none ∧
      (parse_log cfg st log).1.amount0 = upd0 cfg st.amount0 log := by
  obtain ⟨h0, h1, h2⟩ := h
  unfold parse_log step_amount0 step_amount1 step_token_id upd0
  split_ifs <;> simp_all

/-- When every decode succeeds, the loop does not raise and `amount0`
ends as the left fold of `upd0` over the logs. -/
theorem parse_logs_decodes (cfg : MgrConfig) :
    ∀ (logs : List Log) (st : MgrState),
      (∀ l ∈ logs, logDecodes cfg l) →
      (parse_logs cfg st logs).2 = none ∧
        (parse_logs cfg st logs).1.amount0 = logs.foldl (upd0 cfg) st.amount0 := by
  intro logs
  induction logs with
  | nil => intro st _; exact ⟨rfl, rfl⟩
  | cons l ls ih =>
    intro st h
    have hl := parse_log_decodes cfg st l (h l (List.mem_cons_self l ls))
    have hls : ∀ x ∈ ls, logDecodes cfg x :=
      fun x hx => h x (List.mem_cons_of_mem l hx)
    unfold parse_logs
    rcases hp : parse_log cfg st l with ⟨st1, e1⟩
    rw [hp] at hl
    cases e1 with
    | some e => simp at hl
    | none =>
      refine ⟨(ih st1 hls).1, ?_⟩
      rw [List.foldl_cons, ← hl.2]
      exact (ih st1 hls).2

/-- Folding `upd0` over logs none of which has the token0 address leaves
the accumulator unchanged. -/
theorem foldl_upd0_no_match (cfg : MgrConfig) :
    ∀ (logs : List Log) (a : Option ℚ),
      logs.filter (fun l => l.address == cfg.token0_address) = [] →
      logs.foldl (upd0 cfg) a = a := by
  intro logs
  induction logs with
  | nil => intro a _; rfl
  | cons l ls ih =>
    intro a h
    rw [List.filter_cons] at h
    split at h
    · exact absurd h (List.cons_ne_nil _ _)
    · next hfalse =>
      rw [List.foldl_cons]
      have ha : upd0 cfg a l = a := by
        unfold upd0
        rw [if_neg (fun hc => hfalse (beq_iff_eq.mpr hc))]
      rw [ha]
      exact ih a h

/-- Folding `upd0` over logs at least one of which has the token0 address
yields the value decoded from the last such log. -/
theorem foldl_upd0_last (cfg : MgrConfig) :
    ∀ (logs : List Log) (a : Option ℚ),
      logs.filter (fun l => l.address == cfg.token0_address) ≠ [] →
      ∃ L, (logs.filter (fun l => l.address == cfg.token0_address)).getLast? = some L ∧
        logs.foldl (upd0 cfg) a =
          some (to_human_readable (bytesBE L.data) cfg.token0_decimals) := by
  intro logs
  induction logs with
  | nil => intro a h; exact absurd rfl h
  | cons l ls ih =>
    intro a h
    rw [List.filter_cons] at h ⊢
    by_cases hp : (l.address == cfg.token0_address) = true
    · rw [if_pos hp] at h ⊢
      have hupd : upd0 cfg a l =
          some (to_human_readable (bytesBE l.data) cfg.token0_decimals) := by
        unfold upd0
        rw [if_pos (beq_iff_eq.mp hp)]
      by_cases hnil : ls.filter (fun x => x.address == cfg.token0_address) = []
      · refine ⟨l, ?_, ?_⟩
        · rw [hnil]
          rfl
        · rw [List.foldl_cons, hupd, foldl_upd0_no_match cfg ls _ hnil]
      · obtain ⟨L, hL, hF⟩ := ih (upd0 cfg a l) hnil
        refine ⟨L, ?_, ?_⟩
        · have hsplit : l :: ls.filter (fun x => x.address == cfg.token0_address) =
              [l] ++ ls.filter (fun x => x.address == cfg.token0_address) := rfl
          rw [hsplit, List.getLast?_append_of_ne_nil _ hnil]
          exact hL
        · rw [List.foldl_cons]
          exact hF
    · rw [if_neg hp] at h ⊢
      have hupd : upd0 cfg a l = a := by
        unfold upd0
        rw [if_neg (fun hc => hp (beq_iff_eq.mpr hc))]
      obtain ⟨L, hL, hF⟩ := ih a h
      exact ⟨L, hL, by rw [List.foldl_cons, hupd]; exact hF⟩

/-- The state returned by `parse_opening_receipt` is exactly the state
after the loop, whether or not parsing succeeds. -/
theorem parse_opening_receipt_state (cfg : MgrConfig) (st : MgrState) (r : TxReceipt)
    (hrec : st.opening_receipt = some r) :
    (parse_opening_receipt cfg st).1 = (parse_logs cfg st r.logs).1 := by
  unfold parse_opening_receipt
  rw [hrec]
  dsimp only
  rcases hpl : parse_logs cfg st r.logs with ⟨st1, e1⟩
  cases e1 with
  | some e => rfl
  | none =>
    dsimp only
    cases h0 : st1.amount0 <;> cases h1 : st1.amount1 <;>
      cases h2 : st1.nft_token_id <;> rfl

/-! ## Facts about the transaction layer -/

/-- Whatever makes `decrease_liquidity` fail, the exception it raises is
the `RuntimeError("Failed to decrease liquidity.")` wrapper. -/
theorem decrease_liquidity_error_shape (st : MgrState) (o : StepOracle) (e : PyErr)
    (tr : List String) (h : decrease_liquidity st o = (.error e, tr)) :
    ∃ c, e = .chained .runtimeError "Failed to decrease liquidity." c := by
  unfold decrease_liquidity at h
  cases hid : st.nft_token_id with
  | none =>
    rw [hid] at h
    simp only [Prod.mk.injEq, Except.error.injEq] at h
    exact ⟨_, h.1.symm⟩
  | some tid =>
    rw [hid] at h
    dsimp only at h
    split_ifs at h
    · simp only [Prod.mk.injEq, Except.error.injEq] at h
      exact ⟨_, h.1.symm⟩
    · simp only [Prod.mk.injEq, Except.error.injEq] at h
      exact ⟨_, h.1.symm⟩
    · rcases hb : build_and_send_transaction o.tx with ⟨res, tr2⟩
      rw [hb] at h
      cases res with
      | error e2 =>
        dsimp only at h
        simp only [Prod.mk.injEq, Except.error.injEq] at h
        exact ⟨_, h.1.symm⟩
      | ok v =>
        rcases v with ⟨vh, vr⟩
        dsimp only at h
        simp at h

/-- A mined but reverted transaction makes `build_and_send_transaction`
raise after broadcasting exactly one transaction. -/
theorem build_and_send_revert (c : ChainTx) (hpre : c.preOk = true)
    (hsend : c.sendOk = true) (hwait : c.waitOk = true)
    (hstatus : c.receipt.status ≠ 1) :
    build_and_send_transaction c =
      (.error (.chained .runtimeError "Transaction failed"
        (.base .exc "Minting liquidity failed.")), [c.txHash]) := by
  unfold build_and_send_transaction
  rw [hpre, hsend, hwait]
  simp [hstatus]

/-- `get_pool_status` never touches the position attributes (it only
assigns `self.tick_spacing`). -/
theorem get_pool_status_fields (cfg : MgrConfig) (st : MgrState) (o : PoolOracle) :
    (get_pool_status cfg st o).1.amount0 = st.amount0 ∧
      (get_pool_status cfg st o).1.amount1 = st.amount1 ∧
      (get_pool_status cfg st o).1.nft_token_id = st.nft_token_id := by
  unfold get_pool_status
  split_ifs
  · exact ⟨rfl, rfl, rfl⟩
  · exact ⟨rfl, rfl, rfl⟩
  · dsimp only
    cases hgc : get_current_price cfg o with
    | error e => exact ⟨rfl, rfl, rfl⟩
    | ok cp => exact ⟨rfl, rfl, rfl⟩

end Aerodrome

namespace AerodromeClaims

open Aerodrome

/-- C1 counterexample: with `tickSpacing = 100`, `currentTick = 200` (a
multiple of the spacing) and both range units `0`, the computed
`lower_tick` equals the current tick, so the strict ordering
`lowerTick < currentTick < upperTick` claimed for all non-negative range
units fails. -/
theorem tick_range_strict_order_cex :
    ¬(lower_tick 200 100 0 < 200 ∧ (200 : ℤ) < upper_tick 200 100 0) := by
  decide

/-- C1 (amended): for positive tick spacing and non-negative range units,
the tick range of `get_pool_status` satisfies
`lowerTick ≤ currentTick < upperTick`, and the lower inequality is strict
whenever the lower range unit is positive or the current tick is not a
multiple of the spacing. -/
theorem tick_range_order (ct ts l u : ℤ) (hts : 0 < ts) (hl : 0 ≤ l) (hu : 0 ≤ u) :
    lower_tick ct ts l ≤ ct ∧ ct < upper_tick ct ts u ∧
      ((0 < l ∨ ct % ts ≠ 0) → lower_tick ct ts l < ct) := by
  have h0 : 0 ≤ ct % ts := Int.emod_nonneg ct (ne_of_gt hts)
  have h1 : ct % ts < ts := Int.emod_lt_of_pos ct hts
  have hls : 0 ≤ l * ts := mul_nonneg hl hts.le
  have hus : 0 ≤ u * ts := mul_nonneg hu hts.le
  unfold lower_tick upper_tick raw_upper_tick raw_lower_tick
  refine ⟨by linarith, by linarith, ?_⟩
  rintro (h | h)
  · have hl1 : (1 : ℤ) ≤ l := h
    have : ts ≤ l * ts := le_mul_of_one_le_left hts.le hl1
    linarith
  · have : 0 < ct % ts := lt_of_le_of_ne h0 (Ne.symm h)
    linarith

/-- C1 witness: concrete instance of the amended ordering at
`currentTick = 250`, `tickSpacing = 100`, range units `(3, 3)`. -/
theorem tick_range_order_witness :
    (0 : ℤ) < 100 ∧ lower_tick 250 100 3 ≤ 250 ∧ (250 : ℤ) < upper_tick 250 100 3 ∧
      lower_tick 250 100 3 < 250 :=
  ⟨by decide, (tick_range_order 250 100 3 3 (by decide) (by decide) (by decide)).1,
    (tick_range_order 250 100 3 3 (by decide) (by decide) (by decide)).2.1,
    (tick_range_order 250 100 3 3 (by decide) (by decide) (by decide)).2.2
      (Or.inl (by decide))⟩

/-- C6: for positive tick spacing, both adjusted ticks produced by
`get_pool_status` are exact integer multiples of the tick spacing (the
Python `%` on a positive modulus agrees with the floored convention), and
the concrete scenario `tickSpacing = 100`, `currentTick = 250`, range
units `(3, 3)` yields `rawLower = 200`, `rawUpper = 300`,
`lowerTick = -100`, `upperTick = 600`. -/
theorem tick_multiples :
    (∀ ct ts l u : ℤ, 0 < ts → ts ∣ lower_tick ct ts l ∧ ts ∣ upper_tick ct ts u) ∧
      raw_lower_tick 250 100 = 200 ∧ raw_upper_tick 250 100 = 300 ∧
      lower_tick 250 100 3 = -100 ∧ upper_tick 250 100 3 = 600 := by
  refine ⟨?_, by decide, by decide, by decide, by decide⟩
  intro ct ts l u _hts
  have key : ct - ct % ts = ts * (ct / ts) := by
    have := Int.ediv_add_emod ct ts
    linarith
  constructor
  · exact ⟨ct / ts - l, by unfold lower_tick raw_lower_tick; rw [key]; ring⟩
  · exact ⟨ct / ts + 1 + u,
      by unfold upper_tick raw_upper_tick raw_lower_tick; rw [key]; ring⟩

/-- C6 witness: the divisibility part instantiated at the concrete
scenario of the claim. -/
theorem tick_multiples_witness :
    (0 : ℤ) < 100 ∧ (100 : ℤ) ∣ lower_tick 250 100 3 ∧ (100 : ℤ) ∣ upper_tick 250 100 3 :=
  ⟨by decide, (tick_multiples.1 250 100 3 3 (by decide)).1,
    (tick_multiples.1 250 100 3 3 (by decide)).2⟩

/-- C2: converting a decimal amount with at most `d` fractional digits
(`d ∈ {0, 6, 18}`) to base units and back is the identity:
`to_human_readable (to_blockchain_unit x d) d = x`. -/
theorem to_unit_roundtrip (x : ℚ) (d : ℕ) (_hd : d = 0 ∨ d = 6 ∨ d = 18)
    (hx : (x * 10 ^ d).den = 1) :
    to_human_readable (to_blockchain_unit x d) d = x := by
  have h10 : (10 : ℚ) ^ d ≠ 0 := pow_ne_zero _ (by norm_num)
  unfold to_human_readable to_blockchain_unit pyint
  rw [hx, Nat.cast_one, Int.tdiv_one, (Rat.den_eq_one_iff _).mp hx,
    mul_div_assoc, div_self h10, mul_one]

/-- C2 witness: round trip at `x = 3/2` with `d = 6` fractional digits. -/
theorem to_unit_roundtrip_witness :
    ((6 : ℕ) = 0 ∨ (6 : ℕ) = 6 ∨ (6 : ℕ) = 18) ∧
      (((3 / 2 : ℚ) * 10 ^ 6).den = 1) ∧
      to_human_readable (to_blockchain_unit (3 / 2) 6) 6 = 3 / 2 := by
  have hden : ((3 / 2 : ℚ) * 10 ^ 6).den = 1 := by
    have h : (3 / 2 : ℚ) * 10 ^ 6 = ((1500000 : ℤ) : ℚ) := by norm_num
    rw [h, Rat.den_intCast]
  exact ⟨Or.inr (Or.inl rfl), hden,
    to_unit_roundtrip (3 / 2) 6 (Or.inr (Or.inl rfl)) hden⟩

/-- C3 counterexample: at `x = 3/2`, `d = 0` the code returns
`int(Decimal(3/2)) = 1`, not `round(3/2) = 2`. -/
theorem to_blockchain_unit_round_cex :
    to_blockchain_unit (3 / 2) 0 ≠ round ((3 / 2 : ℚ) * 10 ^ (0 : ℕ)) := by
  have h1 : to_blockchain_unit (3 / 2) 0 = 1 := by
    unfold to_blockchain_unit
    rw [pyint_eq_trunc]
    norm_num
  have h2 : round ((3 / 2 : ℚ) * 10 ^ (0 : ℕ)) = 2 := by
    norm_num [round_eq]
  rw [h1, h2]
  decide

/-- C3 (amended): `to_blockchain_unit x d` returns the truncation toward
zero of `x * 10^d` (floor for non-negative values, ceiling for negative
ones), computed with exact decimal arithmetic — not `round(x * 10^d)`,
from which it differs at e.g. `x = 3/2`, `d = 0`. -/
theorem to_blockchain_unit_trunc (x : ℚ) (d : ℕ) :
    to_blockchain_unit x d =
      if 0 ≤ x * 10 ^ d then ⌊x * 10 ^ d⌋ else ⌈x * 10 ^ d⌉ := by
  unfold to_blockchain_unit
  exact pyint_eq_trunc _

/-- C5 counterexample: on a manager still holding a previous position's
parsed attributes, `parse_opening_receipt` applied to a receipt with no
NFT-address two-topic log does not fail at all — it silently returns the
stale values; and even on a fresh manager the failure is a `RuntimeError`,
not a `MalformedReceiptError` (which the code never defines). -/
theorem parse_missing_nft_log_cex :
    (parse_opening_receipt cfgW stStale).2 = .ok (1, 2, 42) ∧
      (parse_opening_receipt cfgW
          { initialState with opening_receipt := some ⟨1, []⟩ }).2 =
        .error (.chained .runtimeError "Error parsing mint receipt"
          (.base .attributeError "amount0, amount1 or nft_token_id")) :=
  ⟨rfl, rfl⟩

/-- C5 (amended): on a manager whose `nft_token_id` was never set,
parsing a receipt whose logs contain no entry with the NFT contract's
address and exactly two topics raises `RuntimeError` (the code defines no
`MalformedReceiptError`); if stale values from a previous position are
still recorded, parsing instead returns them silently. -/
theorem parse_missing_nft_log_raises (cfg : MgrConfig) (st : MgrState) (r : TxReceipt)
    (hrec : st.opening_receipt = some r)
    (hnone : st.nft_token_id = none)
    (hno : ∀ l ∈ r.logs, ¬(l.address = cfg.nft_address ∧ l.topics.length = 2)) :
    ∃ e, (parse_opening_receipt cfg st).2 =
      .error (.chained .runtimeError "Error parsing mint receipt" e) := by
  unfold parse_opening_receipt
  rw [hrec]
  dsimp only
  rcases hpl : parse_logs cfg st r.logs with ⟨st1, e1⟩
  cases e1 with
  | some e => exact ⟨e, rfl⟩
  | none =>
    dsimp only
    have hn := parse_logs_nft_unchanged cfg r.logs st hno
    rw [hpl] at hn
    dsimp only at hn
    rw [hnone] at hn
    cases h0 : st1.amount0 <;> cases h1 : st1.amount1 <;> cases h2 : st1.nft_token_id
    all_goals (try exact ⟨_, rfl⟩)
    all_goals (rw [h2] at hn; simp at hn)

/-- C5 witness: a fresh manager parsing a receipt with no logs at all
fails with a `RuntimeError`. -/
theorem parse_missing_nft_log_raises_witness :
    ({ initialState with opening_receipt := some (⟨1, []⟩ : TxReceipt) } :
        MgrState).nft_token_id = none ∧
      ∃ e, (parse_opening_receipt cfgW
          { initialState with opening_receipt := some ⟨1, []⟩ }).2 =
        .error (.chained .runtimeError "Error parsing mint receipt" e) :=
  ⟨rfl, parse_missing_nft_log_raises cfgW
    { initialState with opening_receipt := some ⟨1, []⟩ } ⟨1, []⟩ rfl rfl (by simp)⟩

/-- C9 counterexample: a receipt whose only token0-address log has an
empty data field makes `parse_opening_receipt` raise (Python's
`int('', 16)` raises `ValueError`), leaving `amount0` unset instead of
setting it to the decoded value. -/
theorem parse_amount0_empty_data_cex :
    (parse_opening_receipt cfgW stEmptyData).1.amount0 = none ∧
      (parse_opening_receipt cfgW stEmptyData).2 =
        .error (.chained .runtimeError "Error parsing mint receipt"
          (.base .valueError "invalid literal for int with base 16")) :=
  ⟨rfl, rfl⟩

/-- C9 (amended): provided every hex decode the loop attempts succeeds
(non-empty data on every token0/token1-address log and a non-empty second
topic on every NFT-address two-topic log), `parse_opening_receipt` sets
`amount0` to the big-endian unsigned integer decoded from the data field
of the LAST token0-address log, converted to human units with token0's
decimals; a matching log with empty data instead aborts parsing. -/
theorem parse_amount0_last_log (cfg : MgrConfig) (st : MgrState) (r : TxReceipt)
    (hrec : st.opening_receipt = some r)
    (hdec : ∀ l ∈ r.logs, logDecodes cfg l)
    (hne : r.logs.filter (fun l => l.address == cfg.token0_address) ≠ []) :
    ∃ L, (r.logs.filter (fun l => l.address == cfg.token0_address)).getLast? = some L ∧
      (parse_opening_receipt cfg st).1.amount0 =
        some (to_human_readable (bytesBE L.data) cfg.token0_decimals) := by
  obtain ⟨L, hL, hF⟩ := foldl_upd0_last cfg r.logs st.amount0 hne
  have hp := (parse_logs_decodes cfg r.logs st hdec).2
  refine ⟨L, hL, ?_⟩
  rw [parse_opening_receipt_state cfg st r hrec, hp, hF]

/-- C9 witness: on a receipt with a single token0 log carrying data
`0x0f4240` (1,000,000) and token0 decimals 6, the parsed `amount0`
is `1.0`. -/
theorem parse_amount0_last_log_witness :
    (∀ l ∈ ((⟨1, [logT0]⟩ : TxReceipt)).logs, logDecodes cfgW l) ∧
      (∃ L, (((⟨1, [logT0]⟩ : TxReceipt)).logs.filter
            (fun l => l.address == cfgW.token0_address)).getLast? = some L ∧
        (parse_opening_receipt cfgW stW).1.amount0 =
          some (to_human_readable (bytesBE L.data) cfgW.token0_decimals)) ∧
      to_human_readable (bytesBE logT0.data) cfgW.token0_decimals = 1 := by
  refine ⟨by decide, parse_amount0_last_log cfgW stW ⟨1, [logT0]⟩ rfl (by decide)
    (by decide), ?_⟩
  have hb : bytesBE logT0.data = 1000000 := by decide
  rw [hb]
  show ((1000000 : ℤ) : ℚ) / 10 ^ (6 : ℕ) = 1
  norm_num

/-- C4 counterexample: on a manager with no recorded `nft_token_id`,
`close_liquidity_position` fails with a `RuntimeError` wrapping the
`AttributeError` — not with a `ValidationError`, a class the code never
defines (though indeed before any transaction is submitted). -/
theorem close_unset_id_validation_cex :
    (close_liquidity_position initialState closeOk).1 =
      .error (.chained .runtimeError "Failed to close liquidity position."
        (.base .attributeError "nft_token_id")) ∧
      (PyErr.chained .runtimeError "Failed to close liquidity position."
        (.base .attributeError "nft_token_id")).kind ≠ ExcKind.validationError ∧
      (close_liquidity_position initialState closeOk).2 = [] :=
  ⟨rfl, by decide, rfl⟩

/-- C4 (amended): invoking `close_liquidity_position` on a manager whose
`nft_token_id` has never been recorded fails with a `RuntimeError`
(wrapping the `AttributeError`; the code defines no `ValidationError`),
and it does so before any decrease/collect/burn transaction is submitted
to the chain (the submitted-transaction trace is empty). -/
theorem close_unset_id_fails_early (st : MgrState) (o : CloseOracle)
    (h : st.nft_token_id = none) :
    close_liquidity_position st o =
      (.error (.chained .runtimeError "Failed to close liquidity position."
        (.base .attributeError "nft_token_id")), []) := by
  unfold close_liquidity_position
  rw [h]

/-- C4 witness: a fresh manager, an otherwise fully functional chain. -/
theorem close_unset_id_fails_early_witness :
    initialState.nft_token_id = none ∧
      close_liquidity_position initialState closeOk =
        (.error (.chained .runtimeError "Failed to close liquidity position."
          (.base .attributeError "nft_token_id")), []) :=
  ⟨rfl, close_unset_id_fails_early initialState closeOk rfl⟩

/-- C7: if the decrease-liquidity step inside `close_liquidity_position`
fails, the close operation submits exactly the transactions the decrease
step submitted (so `collect_fees` and `burn_nft` are never invoked), and
the raised error wraps the decrease step's
`RuntimeError("Failed to decrease liquidity.")`, identifying it as the
failing step. -/
theorem close_decrease_failure (st : MgrState) (o : CloseOracle) (tid : ℕ) (e : PyErr)
    (tr : List String) (hid : st.nft_token_id = some tid)
    (hdec : decrease_liquidity st o.dec = (.error e, tr)) :
    close_liquidity_position st o =
      (.error (.chained .runtimeError "Failed to close liquidity position." e), tr) ∧
      ∃ c, e = .chained .runtimeError "Failed to decrease liquidity." c := by
  constructor
  · unfold close_liquidity_position
    rw [hid]
    dsimp only
    rw [hdec]
  · exact decrease_liquidity_error_shape st o.dec e tr hdec

/-- C7 witness: position id 7, `positions` read fails, so the decrease
step fails before submitting anything and close submits nothing. -/
theorem close_decrease_failure_witness :
    stOpen.nft_token_id = some 7 ∧
      decrease_liquidity stOpen closePositionsFail.dec =
        (.error (.chained .runtimeError "Failed to decrease liquidity."
          (.base .exc "positions call failed")), []) ∧
      (close_liquidity_position stOpen closePositionsFail =
        (.error (.chained .runtimeError "Failed to close liquidity position."
          (.chained .runtimeError "Failed to decrease liquidity."
            (.base .exc "positions call failed"))), []) ∧
        ∃ c, (PyErr.chained .runtimeError "Failed to decrease liquidity."
          (.base .exc "positions call failed")) =
            .chained .runtimeError "Failed to decrease liquidity." c) :=
  ⟨rfl, rfl, close_decrease_failure stOpen closePositionsFail 7 _ [] rfl rfl⟩

/-- C10: a mined transaction whose receipt status is not 1 makes
`build_and_send_transaction` raise, and consequently every
state-changing operation routed through it — approve (when an approval
transaction is actually sent), decrease-liquidity, collect, burn,
transfer and the mint step of open — raises rather than returning a
success value. -/
theorem reverted_tx_raises (c : ChainTx) (hpre : c.preOk = true)
    (hsend : c.sendOk = true) (hwait : c.waitOk = true)
    (hstatus : c.receipt.status ≠ 1) :
    (∃ e, (build_and_send_transaction c).1 = .error e) ∧
      (∀ (amount : ℤ) (o : ApproveOracle), o.tx = c → o.allowance < amount →
        ∃ e, (approve_token amount o).1 = .error e) ∧
      (∀ (st : MgrState) (o : StepOracle), o.tx = c →
        ∃ e, (decrease_liquidity st o).1 = .error e) ∧
      (∀ st : MgrState, ∃ e, (collect_fees st c).1 = .error e) ∧
      (∀ st : MgrState, ∃ e, (burn_nft st c).1 = .error e) ∧
      (∀ (amount : ℚ) (o : TransferOracle), o.tx = c →
        ∃ e, (transfer_token amount o).1 = .error e) ∧
      (∀ (cfg : MgrConfig) (st : MgrState) (o : OpenOracle), o.mintTx = c →
        ∃ e, (open_liquidity_position cfg st o).2.1 = .error e) := by
  have hb := build_and_send_revert c hpre hsend hwait hstatus
  refine ⟨⟨_, by rw [hb]⟩, ?_, ?_, ?_, ?_, ?_, ?_⟩
  · intro amount o hoc hlt
    unfold approve_token
    split_ifs with hf1 hf2 hf3 hf4 hf5
    · exact ⟨_, rfl⟩
    · exact ⟨_, rfl⟩
    · exact ⟨_, rfl⟩
    · exact ⟨_, rfl⟩
    · exact absurd hf5 (not_le.mpr hlt)
    · rw [hoc, hb]
      exact ⟨_, rfl⟩
  · intro st o hoc
    unfold decrease_liquidity
    cases hid : st.nft_token_id with
    | none => exact ⟨_, rfl⟩
    | some tid =>
      dsimp only
      split_ifs
      · exact ⟨_, rfl⟩
      · exact ⟨_, rfl⟩
      · rw [hoc, hb]
        exact ⟨_, rfl⟩
  · intro st
    unfold collect_fees
    cases hid : st.nft_token_id with
    | none => exact ⟨_, rfl⟩
    | some tid =>
      dsimp only
      rw [hb]
      exact ⟨_, rfl⟩
  · intro st
    unfold burn_nft
    cases hid : st.nft_token_id with
    | none => exact ⟨_, rfl⟩
    | some tid =>
      dsimp only
      rw [hb]
      exact ⟨_, rfl⟩
  · intro amount o hoc
    unfold transfer_token
    split_ifs
    · exact ⟨_, rfl⟩
    · exact ⟨_, rfl⟩
    · exact ⟨_, rfl⟩
    · exact ⟨_, rfl⟩
    · rw [hoc, hb]
      exact ⟨_, rfl⟩
  · intro cfg st o hoc
    unfold open_liquidity_position
    rcases hps : get_pool_status cfg st o.pool with ⟨stA, rps⟩
    cases rps with
    | error e => exact ⟨_, rfl⟩
    | ok ps =>
      dsimp only
      rcases ha0 : approve_token (to_blockchain_unit cfg.token0_max cfg.token0_decimals)
          o.approve0 with ⟨r0, tr0⟩
      cases r0 with
      | error e => exact ⟨_, rfl⟩
      | ok s0 =>
        dsimp only
        rcases ha1 : approve_token (to_blockchain_unit cfg.token1_max cfg.token1_decimals)
            o.approve1 with ⟨r1, tr1⟩
        cases r1 with
        | error e => exact ⟨_, rfl⟩
        | ok s1 =>
          dsimp only
          by_cases hblk : o.blockOk = false
          · rw [if_pos hblk]
            exact ⟨_, rfl⟩
          · rw [if_neg hblk, hoc, hb]
            exact ⟨_, rfl⟩

/-- C10 witness: a concrete reverted transaction (status 0) makes both
`build_and_send_transaction` and `collect_fees` on a fresh manager
raise. -/
theorem reverted_tx_raises_witness :
    txRevert.preOk = true ∧ txRevert.receipt.status ≠ 1 ∧
      (∃ e, (build_and_send_transaction txRevert).1 = .error e) ∧
      (∃ e, (collect_fees initialState txRevert).1 = .error e) :=
  ⟨rfl, by decide, (reverted_tx_raises txRevert rfl rfl rfl (by decide)).1,
    (reverted_tx_raises txRevert rfl rfl rfl (by decide)).2.2.2.1 initialState⟩

/-- C8: if `open_liquidity_position` fails at any step before receipt
parsing — the pool-status read, either token approval, the
`get_block` read for the mint deadline, or the mint transaction itself —
then no position is recorded: `nft_token_id`, `amount0` and `amount1`
all remain unset, so the open can be safely retried. -/
theorem open_prefailure_no_position (cfg : MgrConfig) (st : MgrState) (o : OpenOracle)
    (h0 : st.amount0 = none) (h1 : st.amount1 = none) (h2 : st.nft_token_id = none)
    (hfail :
      (∃ e, (get_pool_status cfg st o.pool).2 = .error e) ∨
      (∃ e, (approve_token (to_blockchain_unit cfg.token0_max cfg.token0_decimals)
        o.approve0).1 = .error e) ∨
      (∃ e, (approve_token (to_blockchain_unit cfg.token1_max cfg.token1_decimals)
        o.approve1).1 = .error e) ∨
      o.blockOk = false ∨
      (∃ e, (build_and_send_transaction o.mintTx).1 = .error e)) :
    (open_liquidity_position cfg st o).1.amount0 = none ∧
      (open_liquidity_position cfg st o).1.amount1 = none ∧
      (open_liquidity_position cfg st o).1.nft_token_id = none ∧
      ∃ e, (open_liquidity_position cfg st o).2.1 = .error e := by
  have hfields := get_pool_status_fields cfg st o.pool
  unfold open_liquidity_position
  rcases hps : get_pool_status cfg st o.pool with ⟨stA, rps⟩
  rw [hps] at hfields
  dsimp only at hfields
  obtain ⟨hfa0, hfa1, hfid⟩ := hfields
  cases rps with
  | error e =>
    dsimp only
    exact ⟨hfa0.trans h0, hfa1.trans h1, hfid.trans h2, _, rfl⟩
  | ok ps =>
    dsimp only
    rcases ha0 : approve_token (to_blockchain_unit cfg.token0_max cfg.token0_decimals)
        o.approve0 with ⟨r0, tr0⟩
    cases r0 with
    | error e =>
      dsimp only
      exact ⟨hfa0.trans h0, hfa1.trans h1, hfid.trans h2, _, rfl⟩
    | ok s0 =>
      dsimp only
      rcases ha1 : approve_token (to_blockchain_unit cfg.token1_max cfg.token1_decimals)
          o.approve1 with ⟨r1, tr1⟩
      cases r1 with
      | error e =>
        dsimp only
        exact ⟨hfa0.trans h0, hfa1.trans h1, hfid.trans h2, _, rfl⟩
      | ok s1 =>
        dsimp only
        by_cases hblk : o.blockOk = false
        · rw [if_pos hblk]
          exact ⟨hfa0.trans h0, hfa1.trans h1, hfid.trans h2, _, rfl⟩
        · rw [if_neg hblk]
          rcases hm : build_and_send_transaction o.mintTx with ⟨rm, trm⟩
          cases rm with
          | error e =>
            dsimp only
            exact ⟨hfa0.trans h0, hfa1.trans h1, hfid.trans h2, _, rfl⟩
          | ok v =>
            exfalso
            rcases hfail with ⟨e, hE⟩ | ⟨e, hE⟩ | ⟨e, hE⟩ | hE | ⟨e, hE⟩
            · rw [hps] at hE
              simp at hE
            · rw [ha0] at hE
              simp at hE
            · rw [ha1] at hE
              simp at hE
            · exact hblk hE
            · rw [hm] at hE
              simp at hE

/-- C8 witness: fresh manager, pool-status read fails; the open fails and
all three position attributes stay unset. -/
theorem open_prefailure_no_position_witness :
    initialState.amount0 = none ∧ initialState.nft_token_id = none ∧
      ((open_liquidity_position cfgW initialState openFailOracle).1.amount0 = none ∧
        (open_liquidity_position cfgW initialState openFailOracle).1.amount1 = none ∧
        (open_liquidity_position cfgW initialState openFailOracle).1.nft_token_id = none ∧
        ∃ e, (open_liquidity_position cfgW initialState openFailOracle).2.1 = .error e) :=
  ⟨rfl, rfl, open_prefailure_no_position cfgW initialState openFailOracle rfl rfl rfl
    (Or.inl ⟨.chained .runtimeError "Failed to fetch pool status."
      (.base .exc "slot0 call failed"), rfl⟩)⟩

end AerodromeClaims
